import Mathlib

/-!
Verification of the kcp test-fixture orchestrator
(`sdk/testing/server`, `test/integration/framework`).

The Go code is shallowly embedded: pure helpers become Lean functions,
the poll loops become structural recursion over the finite list of poll
iterations allowed by their bounded timeout budget, and the
mutex-guarded mutable state of a `kcpServer` becomes explicit state
passing.
-/

namespace KcpOrch

/-! ## Substring containment (model of `bytes.Contains`) -/

/-- Model of a byte-wise leading-segment test: `charsLead need hay` is true
when `need` occurs at the very start of `hay`. -/
def charsLead : List Char → List Char → Bool
  | [], _ => true
  | _ :: _, [] => false
  | n :: ns, h :: hs => n == h && charsLead ns hs

/-- Model of `bytes.Contains hay need`: `need` occurs contiguously somewhere
inside `hay`. -/
def charsHaveSub : List Char → List Char → Bool
  | [], need => need.isEmpty
  | h :: t, need => charsLead need (h :: t) || charsHaveSub t need

/-- String-level wrapper for `bytes.Contains`. -/
def strHasSub (hay need : String) : Bool :=
  charsHaveSub hay.data need.data

/-! ## `filterKcpLogs` (sdk/testing/server/kcp.go)

The scanner hands the loop one line at a time (without its trailing
newline); the loop checks each line against the fixed list of noisy
substrings and writes the kept lines back with a `"\n"` appended.
We embed the function at the granularity the loop works at: a list of
scanned lines in, the built output string out. -/

/-- The fixed list of known-noisy substrings `filterKcpLogs` drops,
verbatim from the source. -/
def kcpIgnoredSubstrings : List String :=
  ["clientconn.go:1326] [core] grpc: addrConn.createTransport failed to connect to"]

/-- A line is ignored when the inner loop of `filterKcpLogs` has set the
`ignored` flag: the line contains one of the noisy substrings. -/
def lineIgnored (line : String) : Bool :=
  kcpIgnoredSubstrings.foldl (fun acc ignore => acc || strHasSub line ignore) false

/-- The output-building loop of `filterKcpLogs`: skip ignored lines, write
every other line followed by a newline into the output builder. -/
def filterKcpLogsRun : List String → String
  | [] => ""
  | line :: rest =>
    if lineIgnored line then filterKcpLogsRun rest
    else line ++ "\n" ++ filterKcpLogsRun rest

/-- Rendering of a list of lines, each terminated by a newline. -/
def renderLines : List String → String
  | [] => ""
  | l :: ls => l ++ "\n" ++ renderLines ls

/-- The spec's formulation of the log filter: a pure line-oriented
transform that removes exactly the lines containing a noisy substring and
keeps all other lines unchanged, in order. -/
def filterSpec (lines : List String) : String :=
  renderLines (lines.filter (fun l => !(lineIgnored l)))

/-- The first (and only) noisy substring, used in the concrete scenario. -/
def noisyLine : String :=
  "clientconn.go:1326] [core] grpc: addrConn.createTransport failed to connect to"

/-! ## `runExternal` exit handling (sdk/testing/server/kcp.go)

After `cmd.Wait()` returns, the goroutine closes `shutdownComplete` and
then reports a failure (with the filtered captured log attached) exactly
when the wait produced an error and `ctx.Err()` is still nil, i.e. the
governing context has not been cancelled. -/

/-- What the `cmd.Wait()` goroutine of `runExternal` reports to the test:
whether a failure was raised, and the filtered log text attached to it. -/
structure WaitReport where
  shutdownCompleteClosed : Bool
  failureReported : Bool
  reportedLogs : Option String
  deriving Repr, DecidableEq

/-- The body of the `cmd.Wait()` goroutine of `runExternal`. `waitErr` is
the error returned by `cmd.Wait()` (`none` for a clean, zero-status exit),
`ctxErr` is what `ctx.Err()` returns at that moment (`none` when the
governing context has not been cancelled), and `log` is the captured
in-memory log, as scanned lines. -/
def runExternalWaitOutcome (waitErr : Option String) (ctxErr : Option String)
    (log : List String) : WaitReport :=
  match waitErr, ctxErr with
  | some _, none =>
    { shutdownCompleteClosed := true
      failureReported := true
      reportedLogs := some (filterKcpLogsRun log) }
  | _, _ =>
    { shutdownCompleteClosed := true
      failureReported := false
      reportedLogs := none }

/-! ## `loadCfg` (sdk/testing/server/kcp.go)

`loadCfg` runs `wait.PollUntilContextTimeout(ctx, 100ms, 2min, true, cond)`.
Each invocation of the condition either observes the server as already
cancelled (the condition returns an error and the poll aborts with it),
fails to load the kubeconfig (recording the error in `lastError` only when
it is not a missing-file error, then asking for another iteration), or
succeeds (storing the config under the lock and finishing the poll).
The 2-minute budget allows only finitely many iterations, so the call is
embedded as structural recursion over the finite list of condition
outcomes; an exhausted list is the poll timing out, which
`PollUntilContextTimeout` reports as a context-deadline error. -/

/-- Outcome of one invocation of the poll condition inside `loadCfg`. -/
inductive PollStep where
  | cancelled : PollStep
  | loadFail (missing : Bool) (msg : String) : PollStep
  | loadOk (cfg : String) : PollStep
  deriving Repr, DecidableEq

/-- Whether a poll step is a failed kubeconfig load (as opposed to a
cancellation observation or a success). -/
def PollStep.isLoadFail : PollStep → Bool
  | .loadFail _ _ => true
  | _ => false

/-- Whether a poll step is a missing-file load failure. -/
def PollStep.isMissingFail : PollStep → Bool
  | .loadFail true _ => true
  | _ => false

/-- The error string of the poll's context-deadline expiry, which
`PollUntilContextTimeout` returns when the 2-minute budget runs out. -/
def timedOutErr : String := "context deadline exceeded"

/-- The error the condition returns when it observes `c.Cancelled()`. -/
def shutdownErr : String := "server has been shutdown"

/-- Result of a `loadCfg` call: the value of the mutex-guarded `c.cfg`
field afterwards (it starts out unset), and the returned error, if any. -/
structure LoadResult where
  cfg : Option String
  result : Except String Unit
  deriving Repr

/-- The wrapping `loadCfg` applies to whichever error it reports. -/
def wrapLoadErr (e : String) : String :=
  "failed to load admin kubeconfig: " ++ e

/-- The poll loop of `loadCfg` together with its error postlude, over the
remaining condition outcomes and the current `lastError`. When the poll
finishes with an error, `loadCfg` wraps `lastError` if one was recorded
and the poll's own error otherwise. -/
def loadCfgAux : List PollStep → Option String → LoadResult
  | [], lastError =>
    match lastError with
    | some e => ⟨none, .error (wrapLoadErr e)⟩
    | none => ⟨none, .error (wrapLoadErr timedOutErr)⟩
  | step :: rest, lastError =>
    match step with
    | .cancelled =>
      match lastError with
      | some e => ⟨none, .error (wrapLoadErr e)⟩
      | none => ⟨none, .error (wrapLoadErr shutdownErr)⟩
    | .loadFail missing msg =>
      loadCfgAux rest (if missing then lastError else some msg)
    | .loadOk cfg => ⟨some cfg, .ok ()⟩

/-- Definition of `loadCfg`: the poll starts with no recorded `lastError` and with
`c.cfg` unset. -/
def loadCfg (steps : List PollStep) : LoadResult :=
  loadCfgAux steps none

/-- The accumulator update the poll condition applies to `lastError`:
a non-missing-file load failure overwrites it, everything else keeps it. -/
def lastErrStep (acc : Option String) (s : PollStep) : Option String :=
  match s with
  | .loadFail false msg => some msg
  | _ => acc

/-- The message of the last non-missing-file load failure in a run of poll
steps, if any. -/
def lastNonMissingErr (steps : List PollStep) : Option String :=
  steps.foldl lastErrStep none

/-! ## Config accessors (sdk/testing/server/kcp.go)

`kcpServer.config` and `kcpServer.RawConfig` take the lock and return an
error when `c.cfg` is still nil, i.e. before `loadCfg` has stored a
loaded configuration; they never hand back a zero-value config. The
derivation of a rest config from a loaded one is external `clientcmd`
library code and is embedded abstractly. -/

/-- Accessor `kcpServer.config`: errors out while `c.cfg` is nil, otherwise derives
a client config for the requested context from the loaded one. -/
def kcpServerConfig (cfg : Option String) (context : String) :
    Except String (String × String) :=
  match cfg with
  | none =>
    .error "programmer error: kcpServer.Config() called before load succeeded"
  | some c => .ok (c, context)

/-- Accessor `kcpServer.RawConfig`: errors out while `c.cfg` is nil, otherwise
returns the raw loaded configuration. -/
def kcpServerRawConfig (cfg : Option String) : Except String String :=
  match cfg with
  | none =>
    .error "programmer error: kcpServer.RawConfig() called before load succeeded"
  | some c => .ok c

/-- Accessor `kcpServer.BaseConfig` goes through `config` with the "base" context. -/
def kcpServerBaseConfig (cfg : Option String) : Except String (String × String) :=
  kcpServerConfig cfg "base"

/-! ## Readiness polling (test/integration/framework/server.go and
sdk/testing/server/kcp.go)

`StartTestServer` polls (1s interval, 60s budget) a condition that aborts
when the context is done, retries when building the health client fails,
retries when the `/healthz` probe returns anything other than HTTP 200,
and finishes only on an exact 200. The finite budget again makes the loop
structural recursion over the list of condition outcomes; an exhausted
list is `wait.PollImmediate` timing out. -/

/-- Outcome of one iteration of a health-probe poll loop. -/
inductive ProbeStep where
  | ctxDone (msg : String)
  | clientErr (msg : String)
  | status (code : Nat)
  deriving Repr, DecidableEq

/-- The health-probe poll loop of `StartTestServer` (its condition function,
iterated under `wait.PollImmediate`). -/
def readinessPoll : List ProbeStep → Except String Unit
  | [] => .error "timed out waiting for the condition"
  | .ctxDone msg :: _ => .error msg
  | .clientErr _ :: rest => readinessPoll rest
  | .status code :: rest =>
    if code == 200 then .ok () else readinessPoll rest

/-- Modelled from the spec: `WaitForReady` (its implementation lives outside
this tree) performs a "repeated GET against a well-known health path
through the loaded client configuration, accepting only an exact success
status, polled on a fixed short interval with no fixed timeout beyond the
governing context"; an exhausted list is the governing context ending. -/
def waitForReady : List ProbeStep → Except String Unit
  | [] => .error "context cancelled"
  | .ctxDone msg :: _ => .error msg
  | .clientErr _ :: rest => waitForReady rest
  | .status code :: rest =>
    if code == 200 then .ok () else waitForReady rest

/-- The per-instance readiness task `NewFixture` submits to the fail-fast
group: run `loadCfg`, build the root-shard base config from the loaded
configuration, then block in `WaitForReady` until a probe succeeds. -/
def readinessTask (loadSteps : List PollStep) (probes : List ProbeStep) :
    Except String Unit :=
  match (loadCfg loadSteps).result with
  | .error e => .error e
  | .ok () =>
    match kcpServerConfig (loadCfg loadSteps).cfg "shard-base" with
    | .error e => .error e
    | .ok _ => waitForReady probes

/-! ## Port allocation (test/integration/framework/utils.go)

`unusedPort` binds a loopback listener on an ephemeral port and returns
the port together with the listener's close function. `unusedPorts` makes
three such allocations and closes all three listeners only through
`defer`, i.e. after all three ports have been chosen. The operating-system
guarantee embedded here is an allocation oracle that never returns a port
that is currently bound. -/

/-- Allocation `unusedPort`: bind a listener (the oracle picks a port that is free in
the current bound set) and record it as bound until its close runs. -/
def unusedPort (alloc : List Nat → Nat) (bound : List Nat) : Nat × List Nat :=
  (alloc bound, alloc bound :: bound)

/-- Allocation `unusedPorts`: three consecutive `unusedPort` allocations whose
deferred closes all run only after the third port has been chosen, so
each allocation sees the earlier listeners still bound. -/
def unusedPorts (alloc : List Nat → Nat) (bound : List Nat) :
    (Nat × Nat × Nat) × List Nat :=
  let r1 := unusedPort alloc bound
  let r2 := unusedPort alloc r1.2
  let r3 := unusedPort alloc r2.2
  ((r1.1, r2.1, r3.1), r3.2)

/-! ## `kcpServer.Cancel` (sdk/testing/server/kcp.go)

`Run` stores (under the lock) a `c.cancel` closure that cancels the
lifecycle context and then blocks until `shutdownComplete` is closed.
`Cancel` takes the lock, returns immediately when `c.cancel` is nil, and
otherwise invokes the closure and sets `c.cancelled`. The closure never
closes `shutdownComplete` itself - the channel is closed exactly once, by
the process-wait goroutine of `runExternal` - and `context.CancelFunc` is
idempotent, so the observable per-handle state is embedded as a record
that `Cancel` transforms. -/

/-- Observable state of a `kcpServer` handle relevant to cancellation:
whether `Run` has installed the `c.cancel` closure, whether the lifecycle
context has been cancelled, the `c.cancelled` flag, and how many times the
`shutdownComplete` channel has been closed. -/
structure CancelState where
  hasCancelFn : Bool
  ctxCancelled : Bool
  cancelled : Bool
  shutdownCloseCount : Nat
  deriving Repr, DecidableEq

/-- One call to `kcpServer.Cancel`: a no-op while `c.cancel` is nil,
otherwise it cancels the lifecycle context (idempotently), waits for the
already-counted channel close, and sets the `cancelled` flag. -/
def cancelOp (s : CancelState) : CancelState :=
  if s.hasCancelFn then
    { s with ctxCancelled := true, cancelled := true }
  else s

/-! ## In-process launch (test/integration/framework/goleak.go)

`RunKCPInProcess` is installed into `kcptestingserver.RunInProcessFunc`
by an init hook. It builds the start command, makes the `stopCh`
completion channel, and runs the command in a detached goroutine whose
body is: deferred `close(stopCh)`, deferred `etcdCancel()`, then
`startCmd.Execute()` with its error, if any, passed to `tb.Errorf`.
The deferred `close(stopCh)` and `etcdCancel()` run once `Execute`
finishes, and they also run while a panic unwinds the goroutine; an error
returned by `Execute` is reported through `tb.Errorf`. There is no
`recover` anywhere in the goroutine, so a panic of the entry point
escapes the detached goroutine instead of being turned into a test
error. -/

/-- How `startCmd.Execute()` - the in-process entry point - finishes: a
clean return, a returned error, or a panic. -/
inductive EntryOutcome where
  | execOk
  | execErr (msg : String)
  | panicked (msg : String)
  deriving Repr, DecidableEq

/-- What the detached in-process launch goroutine leaves behind: whether
the `stopCh` completion channel was closed, the test errors it reported,
and whether a panic escaped the goroutine. -/
structure InProcessReport where
  doneSignalClosed : Bool
  testErrors : List String
  panicEscaped : Bool
  deriving Repr, DecidableEq

/-- The detached goroutine of `RunKCPInProcess`: the deferred
`close(stopCh)` runs on every way out of the goroutine (normal return and
panic unwinding alike), a returned error is reported via `tb.Errorf`, and
a panic is not recovered - it escapes without any test error being
reported. -/
def runKCPInProcessGoroutine : EntryOutcome → InProcessReport
  | .execOk =>
    { doneSignalClosed := true, testErrors := [], panicEscaped := false }
  | .execErr msg =>
    { doneSignalClosed := true
      testErrors := ["error in kcp: " ++ msg]
      panicEscaped := false }
  | .panicked _ =>
    { doneSignalClosed := true, testErrors := [], panicEscaped := true }

/-! ## `newKcpServer` (sdk/testing/server/kcp.go) and `NewFixture`

`newKcpServer` allocates three free ports, derives the per-instance data
and artifact directories from the config, and builds the final argument
list: the fixed default arguments first, then `cfg.Args` appended.
`NewFixture` first walks the provided configs in order, panicking on an
empty `ArtifactDir` or `DataDir` and otherwise constructing the server
(which is what allocates the ports) before moving to the next config. -/

/-- The `Config` record of sdk/testing/server/config.go. -/
structure KcpConfig where
  name : String
  args : List String
  artifactDir : String
  dataDir : String
  clientCADir : String
  logToConsole : Bool
  runInProcess : Bool
  deriving Repr, DecidableEq

/-- The per-instance data directory `filepath.Join(cfg.DataDir, "kcp", cfg.Name)`. -/
def kcpServerDataDir (cfg : KcpConfig) : String :=
  cfg.dataDir ++ "/kcp/" ++ cfg.name

/-- The per-instance artifact directory `filepath.Join(cfg.ArtifactDir, "kcp", cfg.Name)`. -/
def kcpServerArtifactDir (cfg : KcpConfig) : String :=
  cfg.artifactDir ++ "/kcp/" ++ cfg.name

/-- The default argument list `newKcpServer` builds, verbatim from the
source, given the three allocated ports and the rendered feature gates. -/
def kcpDefaultArgs (cfg : KcpConfig)
    (kcpListenPort etcdClientPort etcdPeerPort featureGates : String) :
    List String :=
  ["--root-directory",
   kcpServerDataDir cfg,
   "--secure-port=" ++ kcpListenPort,
   "--embedded-etcd-client-port=" ++ etcdClientPort,
   "--embedded-etcd-peer-port=" ++ etcdPeerPort,
   "--embedded-etcd-wal-size-bytes=" ++ "5000",
   "--kubeconfig-path=" ++ (kcpServerDataDir cfg ++ "/admin.kubeconfig"),
   "--feature-gates=" ++ featureGates,
   "--audit-log-path",
   kcpServerArtifactDir cfg ++ "/kcp.audit",
   "--v=4"]

/-- The final argument list of the server handle: defaults first, then the
caller-supplied `cfg.Args` appended. -/
def newKcpServerArgs (cfg : KcpConfig)
    (kcpListenPort etcdClientPort etcdPeerPort featureGates : String) :
    List String :=
  kcpDefaultArgs cfg kcpListenPort etcdClientPort etcdPeerPort featureGates
    ++ cfg.args

/-- Whether `NewFixture`'s validation rejects a config: an empty
`ArtifactDir` or an empty `DataDir`. -/
def cfgIsBad (cfg : KcpConfig) : Bool :=
  cfg.artifactDir.isEmpty || cfg.dataDir.isEmpty

/-- The panic message `NewFixture` produces for a rejected config: the
`ArtifactDir` check runs first. -/
def cfgPanicMsg (cfg : KcpConfig) : String :=
  if cfg.artifactDir.isEmpty then
    "provided kcpConfig for " ++ cfg.name ++ " is incorrect, missing ArtifactDir"
  else
    "provided kcpConfig for " ++ cfg.name ++ " is incorrect, missing DataDir"

/-- A panic raised inside `NewFixture`'s first loop, together with how many
servers had already been constructed and how many ports had already been
allocated (three per constructed server) when it fired. -/
structure FixturePanic where
  message : String
  serversCreated : Nat
  portsAllocated : Nat
  deriving Repr, DecidableEq

/-- The first loop of `NewFixture`: for each config in order, panic when
`ArtifactDir` or `DataDir` is empty, otherwise construct the server via
`newKcpServer` (allocating its three ports) and continue. `created` counts
the servers constructed so far. -/
def newFixtureInit : List KcpConfig → Nat → Except FixturePanic (List String)
  | [], _ => .ok []
  | cfg :: rest, created =>
    if cfg.artifactDir.isEmpty then
      .error ⟨"provided kcpConfig for " ++ cfg.name
        ++ " is incorrect, missing ArtifactDir", created, 3 * created⟩
    else if cfg.dataDir.isEmpty then
      .error ⟨"provided kcpConfig for " ++ cfg.name
        ++ " is incorrect, missing DataDir", created, 3 * created⟩
    else
      match newFixtureInit rest (created + 1) with
      | .ok names => .ok (cfg.name :: names)
      | .error p => .error p

/-- A well-formed config used in concrete scenarios. -/
def cfgGoodA : KcpConfig :=
  ⟨"a", [], "artifacts", "data", "", false, false⟩

/-- A config with empty `ArtifactDir` and `DataDir`, used in concrete
scenarios. -/
def cfgBadB : KcpConfig :=
  ⟨"b", [], "", "", "", false, false⟩

end KcpOrch

namespace KcpOrch

/-! ## Theorems -/

/-- C5: `filterKcpLogs` is a pure line-oriented transform: it equals the
filter that removes exactly the lines containing a noisy substring and
keeps all other lines, in their original order; applied to a log of one
noisy line and two normal lines it returns exactly the two normal lines
in order. -/
theorem filterKcpLogs_is_line_filter :
    (∀ lines : List String, filterKcpLogsRun lines = filterSpec lines) ∧
    filterKcpLogsRun [noisyLine, "line one", "line two"] = "line one\nline two\n" := by
  constructor
  · intro lines
    induction lines with
    | nil => rfl
    | cons l ls ih =>
      by_cases h : lineIgnored l
      · simp [filterKcpLogsRun, filterSpec, List.filter, h] at *
        exact ih
      · simp [filterKcpLogsRun, filterSpec, List.filter, h, renderLines] at *
        rw [ih]
  · decide

/-- C1: when `cmd.Wait()` returns a non-zero-exit error while the governing
context has been cancelled, `runExternal`'s wait goroutine reports no
failure; when it returns such an error and the context has not been
cancelled, a failure is reported and it carries the filtered captured log
contents. -/
theorem runExternal_failure_reporting (e c : String) (log : List String) :
    runExternalWaitOutcome (some e) (some c) log =
      { shutdownCompleteClosed := true, failureReported := false,
        reportedLogs := none } ∧
    runExternalWaitOutcome (some e) none log =
      { shutdownCompleteClosed := true, failureReported := true,
        reportedLogs := some (filterKcpLogsRun log) } :=
  ⟨rfl, rfl⟩

/-- Helper: on a run consisting only of failed loads, `loadCfg`'s loop
consumes every step and then reports the accumulated last non-missing-file
error, or the poll's own timeout error when none was recorded. -/
theorem loadCfgAux_all_fail (steps : List PollStep) (le : Option String)
    (h : steps.all PollStep.isLoadFail = true) :
    loadCfgAux steps le =
      ⟨none, .error (wrapLoadErr ((steps.foldl lastErrStep le).getD timedOutErr))⟩ := by
  induction steps generalizing le with
  | nil => cases le <;> rfl
  | cons s rest ih =>
    cases s with
    | cancelled => simp [PollStep.isLoadFail, List.all_cons] at h
    | loadOk cfg => simp [PollStep.isLoadFail, List.all_cons] at h
    | loadFail missing msg =>
      have hrest : rest.all PollStep.isLoadFail = true := by
        simpa [List.all_cons, PollStep.isLoadFail] using h
      cases missing with
      | true =>
        simpa [loadCfgAux, lastErrStep, List.foldl_cons] using ih le hrest
      | false =>
        simpa [loadCfgAux, lastErrStep, List.foldl_cons] using ih (some msg) hrest

/-- C2: on a poll run in which every condition invocation fails to load the
kubeconfig (so the 2-minute budget runs out), `loadCfg` terminates with an
error: missing-file failures are never recorded as the terminal error and
polling continues past them, the error wraps the last non-missing-file
failure when one was observed, and otherwise wraps the poll's generic
timeout error. -/
theorem loadCfg_timeout_behavior (steps : List PollStep)
    (h : steps.all PollStep.isLoadFail = true) :
    loadCfg steps =
      ⟨none, .error (wrapLoadErr ((lastNonMissingErr steps).getD timedOutErr))⟩ :=
  loadCfgAux_all_fail steps none h

/-- Witness for C2: three failed loads - missing file, a parse error, then a
missing file again - end in the parse error being wrapped; two missing-file
failures alone end in the generic timeout error. -/
theorem loadCfg_timeout_behavior_witness :
    loadCfg [.loadFail true "no such file", .loadFail false "bad parse",
        .loadFail true "no such file"] =
      ⟨none, .error (wrapLoadErr "bad parse")⟩ ∧
    loadCfg [.loadFail true "no such file", .loadFail true "no such file"] =
      ⟨none, .error (wrapLoadErr timedOutErr)⟩ :=
  ⟨loadCfg_timeout_behavior _ (by decide), loadCfg_timeout_behavior _ (by decide)⟩

/-- Helper: `loadCfg`'s loop leaves `c.cfg` unset on every path that does
not end in a successful load. -/
theorem loadCfgAux_cfg_none_or_ok (steps : List PollStep) (le : Option String) :
    (loadCfgAux steps le).cfg = none ∨ (loadCfgAux steps le).result = .ok () := by
  induction steps generalizing le with
  | nil => cases le <;> exact Or.inl rfl
  | cons s rest ih =>
    cases s with
    | cancelled => cases le <;> exact Or.inl rfl
    | loadOk cfg => exact Or.inr rfl
    | loadFail missing msg => exact ih _

/-- C7: while the loaded configuration is unset, `kcpServer.config` (hence
`BaseConfig`) and `kcpServer.RawConfig` return an error rather than a
zero-value configuration, and after any `loadCfg` call the configuration
is still unset unless the call succeeded. -/
theorem config_accessors_fail_before_load :
    (∀ context : String,
      kcpServerConfig none context =
        .error "programmer error: kcpServer.Config() called before load succeeded") ∧
    kcpServerRawConfig none =
      .error "programmer error: kcpServer.RawConfig() called before load succeeded" ∧
    kcpServerBaseConfig none =
      .error "programmer error: kcpServer.Config() called before load succeeded" ∧
    (∀ steps : List PollStep,
      (loadCfg steps).cfg = none ∨ (loadCfg steps).result = .ok ()) :=
  ⟨fun _ => rfl, rfl, rfl, fun steps => loadCfgAux_cfg_none_or_ok steps none⟩

/-- Helper: the `StartTestServer` poll loop finishes successfully only if
one of its iterations observed an exact HTTP 200 health status. -/
theorem readinessPoll_ok_saw_200 (steps : List ProbeStep)
    (h : readinessPoll steps = .ok ()) : ProbeStep.status 200 ∈ steps := by
  induction steps with
  | nil => simp [readinessPoll] at h
  | cons s rest ih =>
    cases s with
    | ctxDone msg => simp [readinessPoll] at h
    | clientErr msg => exact List.mem_cons_of_mem _ (ih h)
    | status code =>
      by_cases hc : code = 200
      · subst hc
        exact List.mem_cons_self _ _
      · rw [readinessPoll, if_neg (by simpa using hc)] at h
        exact List.mem_cons_of_mem _ (ih h)

/-- Helper: `WaitForReady` finishes successfully only if one of its probes
observed an exact HTTP 200 health status. -/
theorem waitForReady_ok_saw_200 (probes : List ProbeStep)
    (h : waitForReady probes = .ok ()) : ProbeStep.status 200 ∈ probes := by
  induction probes with
  | nil => simp [waitForReady] at h
  | cons s rest ih =>
    cases s with
    | ctxDone msg => simp [waitForReady] at h
    | clientErr msg => exact List.mem_cons_of_mem _ (ih h)
    | status code =>
      by_cases hc : code = 200
      · subst hc
        exact List.mem_cons_self _ _
      · rw [waitForReady, if_neg (by simpa using hc)] at h
        exact List.mem_cons_of_mem _ (ih h)

/-- C3: readiness is never signaled before a health probe has returned
exactly HTTP 200: `StartTestServer`'s poll succeeds only if an iteration
observed status 200, and `NewFixture`'s per-instance readiness task
completes successfully only if the config load succeeded and a probe
observed status 200. -/
theorem readiness_requires_200 :
    (∀ steps : List ProbeStep,
      readinessPoll steps = .ok () → ProbeStep.status 200 ∈ steps) ∧
    (∀ (loadSteps : List PollStep) (probes : List ProbeStep),
      readinessTask loadSteps probes = .ok () →
        (loadCfg loadSteps).result = .ok () ∧ ProbeStep.status 200 ∈ probes) := by
  refine ⟨readinessPoll_ok_saw_200, ?_⟩
  intro loadSteps probes h
  rw [readinessTask] at h
  cases hres : (loadCfg loadSteps).result with
  | error e => rw [hres] at h; exact absurd h (by simp)
  | ok u =>
    cases u
    rw [hres] at h
    refine ⟨rfl, ?_⟩
    cases hcfg : kcpServerConfig (loadCfg loadSteps).cfg "shard-base" with
    | error e => rw [hcfg] at h; exact absurd h (by simp)
    | ok c =>
      rw [hcfg] at h
      exact waitForReady_ok_saw_200 probes h

/-- Witness for C3: a concrete successful run - the config loads on the
second poll iteration and the second health probe returns 200. -/
theorem readiness_requires_200_witness :
    (loadCfg [.loadFail true "no such file", .loadOk "admin.kubeconfig"]).result =
      .ok () ∧
    ProbeStep.status 200 ∈
      [ProbeStep.clientErr "racing the API server", ProbeStep.status 500,
        ProbeStep.status 200] :=
  readiness_requires_200.2
    [.loadFail true "no such file", .loadOk "admin.kubeconfig"]
    [ProbeStep.clientErr "racing the API server", ProbeStep.status 500,
      ProbeStep.status 200] rfl

/-- C4: within one allocation burst in which every listener is held open
until all ports have been chosen - as `unusedPorts` does via its deferred
closes - the returned port numbers are pairwise distinct, given that the
system never binds a port that is already bound. -/
theorem unusedPorts_pairwise_distinct (alloc : List Nat → Nat)
    (bound : List Nat) (hfree : ∀ s : List Nat, alloc s ∉ s) :
    (unusedPorts alloc bound).1.1 ≠ (unusedPorts alloc bound).1.2.1 ∧
    (unusedPorts alloc bound).1.1 ≠ (unusedPorts alloc bound).1.2.2 ∧
    (unusedPorts alloc bound).1.2.1 ≠ (unusedPorts alloc bound).1.2.2 := by
  simp only [unusedPorts, unusedPort]
  have h2 := hfree (alloc bound :: bound)
  have h3 := hfree (alloc (alloc bound :: bound) :: alloc bound :: bound)
  simp only [List.mem_cons, not_or] at h2 h3
  exact ⟨fun h => h2.1 h.symm, fun h => h3.2.1 h.symm, fun h => h3.1 h.symm⟩

/-- Witness for C4: the oracle that returns one more than the sum of the
currently bound ports never returns a bound port, and the burst starting
from no bound ports yields three pairwise distinct ports. -/
theorem unusedPorts_pairwise_distinct_witness :
    (unusedPorts (fun s => s.sum + 1) []).1.1 ≠
      (unusedPorts (fun s => s.sum + 1) []).1.2.1 ∧
    (unusedPorts (fun s => s.sum + 1) []).1.1 ≠
      (unusedPorts (fun s => s.sum + 1) []).1.2.2 ∧
    (unusedPorts (fun s => s.sum + 1) []).1.2.1 ≠
      (unusedPorts (fun s => s.sum + 1) []).1.2.2 :=
  unusedPorts_pairwise_distinct (fun s => s.sum + 1) []
    (by
      intro s hs
      have h1 := List.single_le_sum (fun x (_ : x ∈ s) => Nat.zero_le x) _ hs
      simp only at h1 hs
      omega)

/-- C6: on a handle, calling `Cancel` a second time is a no-op: it leaves
the handle in the same observable state as after the first call, and no
`Cancel` call ever closes the completion channel (so in particular a
second call never double-closes it). -/
theorem cancel_idempotent (s : CancelState) :
    cancelOp (cancelOp s) = cancelOp s ∧
    (cancelOp s).shutdownCloseCount = s.shutdownCloseCount := by
  constructor
  · by_cases h : s.hasCancelFn <;> simp [cancelOp, h]
  · by_cases h : s.hasCancelFn <;> simp [cancelOp, h]

/-- Counterexample for C8: when the in-process entry point panics, the
panic escapes the detached goroutine of `RunKCPInProcess` - there is no
`recover` in it - and no test error is reported, contradicting the claim
that a panic is reported as a test error rather than propagated. -/
theorem inprocess_panic_escapes :
    (runKCPInProcessGoroutine (.panicked "boom")).panicEscaped = true ∧
    (runKCPInProcessGoroutine (.panicked "boom")).testErrors = [] :=
  ⟨rfl, rfl⟩

/-- C8 (amended): for every in-process launch, the `stopCh` completion
channel is closed once the entry point finishes (the deferred close also
runs while a panic unwinds the goroutine), and an error returned by the
entry point is reported as a test error; a panic, however, is not
recovered: it escapes the detached goroutine without being reported as a
test error. -/
theorem inprocess_done_closed_and_errors_reported (e msg : String) :
    runKCPInProcessGoroutine .execOk =
      { doneSignalClosed := true, testErrors := [], panicEscaped := false } ∧
    runKCPInProcessGoroutine (.execErr e) =
      { doneSignalClosed := true
        testErrors := ["error in kcp: " ++ e]
        panicEscaped := false } ∧
    runKCPInProcessGoroutine (.panicked msg) =
      { doneSignalClosed := true, testErrors := [], panicEscaped := true } :=
  ⟨rfl, rfl, rfl⟩

/-- C9: for every config, the final argument list is the default arguments
(root/data directory, secure port, the two embedded-etcd ports, the etcd
size argument, the kubeconfig output path, verbosity, and the audit log
path, which all occur among the defaults) followed by the caller-supplied
extra arguments, so the extras can override the defaults. -/
theorem newKcpServer_extra_args_last (cfg : KcpConfig)
    (p1 p2 p3 fg : String) :
    ∃ defaults : List String,
      newKcpServerArgs cfg p1 p2 p3 fg = defaults ++ cfg.args ∧
      "--root-directory" ∈ defaults ∧
      kcpServerDataDir cfg ∈ defaults ∧
      "--secure-port=" ++ p1 ∈ defaults ∧
      "--embedded-etcd-client-port=" ++ p2 ∈ defaults ∧
      "--embedded-etcd-peer-port=" ++ p3 ∈ defaults ∧
      "--embedded-etcd-wal-size-bytes=" ++ "5000" ∈ defaults ∧
      "--kubeconfig-path=" ++ (kcpServerDataDir cfg ++ "/admin.kubeconfig") ∈ defaults ∧
      "--v=4" ∈ defaults ∧
      "--audit-log-path" ∈ defaults ∧
      kcpServerArtifactDir cfg ++ "/kcp.audit" ∈ defaults := by
  refine ⟨kcpDefaultArgs cfg p1 p2 p3 fg, rfl, ?_, ?_, ?_, ?_, ?_, ?_, ?_, ?_, ?_, ?_⟩
    <;> simp [kcpDefaultArgs]

/-- Counterexample for C10: with a well-formed first config and a second
config missing its directories, `NewFixture`'s loop panics naming the
second instance, but only after one server has already been constructed
and its three ports allocated - not before any server is created or any
port is allocated, as the claim states. -/
theorem newFixture_panic_after_first_server :
    newFixtureInit [cfgGoodA, cfgBadB] 0 =
      .error ⟨"provided kcpConfig for b is incorrect, missing ArtifactDir", 1, 3⟩ ∧
    (1 : Nat) ≠ 0 ∧ (3 : Nat) ≠ 0 :=
  ⟨rfl, by decide, by decide⟩

/-- C10 (amended): `NewFixture` panics whenever a provided config has an
empty `ArtifactDir` or `DataDir`, with a message naming the first
offending instance, before constructing a server or allocating ports for
that offending config; servers for the well-formed configs preceding it in
the list have already been constructed (three ports each) when the panic
fires. -/
theorem newFixture_panics_at_first_bad (good : List KcpConfig)
    (bad : KcpConfig) (rest : List KcpConfig) (n : Nat)
    (hg : good.all (fun c => !(cfgIsBad c)) = true)
    (hb : cfgIsBad bad = true) :
    newFixtureInit (good ++ bad :: rest) n =
      .error ⟨cfgPanicMsg bad, n + good.length, 3 * (n + good.length)⟩ := by
  induction good generalizing n with
  | nil =>
    by_cases ha : bad.artifactDir.isEmpty
    · simp [newFixtureInit, cfgPanicMsg, ha]
    · have hd : bad.dataDir.isEmpty = true := by
        simpa [cfgIsBad, ha] using hb
      simp [newFixtureInit, cfgPanicMsg, ha, hd]
  | cons c good' ih =>
    simp only [List.all_cons, Bool.and_eq_true, Bool.not_eq_true'] at hg
    obtain ⟨hc, hrest⟩ := hg
    have hab : c.artifactDir.isEmpty = false ∧ c.dataDir.isEmpty = false := by
      simpa [cfgIsBad] using hc
    have harith : n + 1 + good'.length = n + (good'.length + 1) := by omega
    simp [newFixtureInit, hab.1, hab.2, List.append_eq, ih (n + 1) hrest, harith]

/-- Witness for the amended C10: one well-formed config precedes the
offending one, and the panic fires after exactly one server (three ports)
was constructed. -/
theorem newFixture_panics_at_first_bad_witness :
    newFixtureInit [cfgGoodA, cfgBadB] 0 = .error ⟨cfgPanicMsg cfgBadB, 1, 3⟩ :=
  newFixture_panics_at_first_bad [cfgGoodA] cfgBadB [] 0 (by decide) (by decide)

end KcpOrch
